import Mathlib

/-!
Verification development for the MBG_MANAGER process-supervision core.

The supervision logic lives in `components/bot_manager.py`, which is imported
by `src/main.py` but whose source is not part of this tree; those operations
are modelled from the specification (spec.md §§3-7).  The GUI-side command
loops, the monitoring scheduler pattern and the snapshot rendering are
translated directly from `src/main.py`.
-/

/-- The closed status enumeration of a `ProcessRecord` (spec §3). -/
inductive Status
  | starting
  | running
  | crashed
  | stopped
  | stopped_manual
  | error
deriving DecidableEq, Repr

/-- One tracked bot instance (spec §3 data model). -/
structure ProcessRecord where
  pid : Nat
  profile : String
  launchScript : Option String
  status : Status
  startedAt : Nat
  lastSeenAt : Nat
  cpuPercent : Nat
  memoryBytes : Nat
  restartCount : Nat
  antiCrashEnabled : Bool
  detected : Bool
  errorMsg : Option String
deriving DecidableEq, Repr

/-- Result of `ProcessInspector.query(pid)` (spec §4.1). -/
inductive QueryResult
  | metrics (cpu mem : Nat)
  | notFound
  | permissionDenied (msg : String)
deriving DecidableEq, Repr

/-- The OS-facing environment of one tick or command: process-table queries,
spawn outcomes keyed by the record pid or by the launch script, script
existence, the per-record restart-backoff check and the current time. -/
structure Env where
  query : Nat → QueryResult
  spawn : Nat → Option Nat
  spawnScript : String → Option Nat
  scriptExists : String → Bool
  backoffElapsed : Nat → Bool
  now : Nat

/-- Outcome of one registry-mutating command: the `(success, message)` pair
every GUI-surface command returns (spec §6), plus the updated registry. -/
structure CmdResult where
  success : Bool
  message : String
  registry : List ProcessRecord
deriving DecidableEq, Repr

/-- Modelled from the spec: liveness-loss classification inside
`BotManager.monitor_processes` (spec §4.4 step 3, first half) — a record whose
pid vanished is marked `crashed` unless a manual stop already marked it
`stopped_manual`, which is left alone. -/
def classifyLoss (r : ProcessRecord) : ProcessRecord :=
  if r.status = Status.stopped_manual then r
  else { r with status := Status.crashed }

/-- Modelled from the spec: the auto-restart policy applied to a record just
classified as crashed (spec §4.4 step 3, second half): if `antiCrashEnabled`,
a `launchScript` is on file and the backoff window elapsed, relaunch — the new
pid replaces the old one under the same logical record, `restartCount` is
carried over plus one and the status becomes `starting`; otherwise the record
stays `crashed`. -/
def crashResponse (env : Env) (r : ProcessRecord) : ProcessRecord :=
  match r.launchScript with
  | some _ =>
      if r.antiCrashEnabled && env.backoffElapsed r.pid then
        match env.spawn r.pid with
        | some newPid =>
            { r with pid := newPid, status := Status.starting,
                     restartCount := r.restartCount + 1,
                     startedAt := env.now, lastSeenAt := env.now,
                     detected := false }
        | none => { r with status := Status.crashed }
      else { r with status := Status.crashed }
  | none => { r with status := Status.crashed }

/-- Modelled from the spec: the full response to a `NotFound` query during a
tick (spec §4.4 step 3): classify, then auto-restart when policy allows. -/
def lossResponse (env : Env) (r : ProcessRecord) : ProcessRecord :=
  let c := classifyLoss r
  if c.status = Status.crashed then crashResponse env c else c

/-- Modelled from the spec: one record's treatment by
`BotManager.monitor_processes` (spec §4.4 tick steps 1-4).  Only records in
`{starting, running, crashed}` are queried; metrics refresh the sample and
promote `starting` to `running`; `NotFound` drives crash classification and
the restart policy; `PermissionDenied` sets `status=error` and surfaces the
message without restarting. -/
def tickRecord (env : Env) (r : ProcessRecord) : ProcessRecord :=
  if r.status = Status.starting ∨ r.status = Status.running ∨ r.status = Status.crashed then
    match env.query r.pid with
    | QueryResult.metrics cpu mem =>
        { r with cpuPercent := cpu, memoryBytes := mem, lastSeenAt := env.now,
                 status := if r.status = Status.starting then Status.running else r.status }
    | QueryResult.notFound => lossResponse env r
    | QueryResult.permissionDenied msg =>
        { r with status := Status.error, errorMsg := some msg }
  else r

/-- Modelled from the spec: a whole monitoring tick over the registry
(`BotManager.monitor_processes`); every record is processed independently. -/
def tick (env : Env) (reg : List ProcessRecord) : List ProcessRecord :=
  reg.map (tickRecord env)

/-- Modelled from the spec: the status effect of `LaunchController.stop`
(spec §4.3) — `stopped_manual` when the stop is manual, else `stopped`. -/
def stop_bot (manual : Bool) (r : ProcessRecord) : ProcessRecord :=
  { r with status := if manual then Status.stopped_manual else Status.stopped }

/-- Modelled from the spec: `BotManager.stop_bot(pid, manual_stop)` at registry
level — the record with the given pid is stopped; an unknown pid is reported
with a message and leaves the registry unchanged. -/
def stopBotById (reg : List ProcessRecord) (pid : Nat) (manual : Bool) : CmdResult :=
  if reg.any (fun r => r.pid == pid) then
    { success := true, message := "",
      registry := reg.map (fun r => if r.pid == pid then stop_bot manual r else r) }
  else
    { success := false, message := "No process found with the given PID",
      registry := reg }

/-- Modelled from the spec: `BotManager.remove_bot(pid)` — fails with
`StillRunning` while the OS process is alive, otherwise deletes the record
(spec §4.4 remove). -/
def remove_bot (alive : Nat → Bool) (reg : List ProcessRecord) (pid : Nat) : CmdResult :=
  match reg.find? (fun r => r.pid == pid) with
  | none =>
      { success := false, message := "No process found with the given PID",
        registry := reg }
  | some _ =>
      if alive pid then
        { success := false, message := "StillRunning: stop the process before removing",
          registry := reg }
      else
        { success := true, message := "",
          registry := reg.filter (fun r => r.pid != pid) }

/-- Modelled from the spec: `BotManager.restart_bot(pid)` — a manual restart is
a stop followed by a start with the same script and profile; the new pid
replaces the old one and `restartCount` is not touched (spec §4.4 restart).
On launch failure the registry is left unchanged (spec §7). -/
def restart_bot (env : Env) (reg : List ProcessRecord) (pid : Nat) : CmdResult :=
  match reg.find? (fun r => r.pid == pid) with
  | none =>
      { success := false, message := "No process found with the given PID",
        registry := reg }
  | some r =>
      match r.launchScript with
      | none =>
          { success := false, message := "No launch script on file for the given PID",
            registry := reg }
      | some _ =>
          match env.spawn pid with
          | none =>
              { success := false, message := "SpawnFailed", registry := reg }
          | some newPid =>
              { success := true, message := "",
                registry := reg.map (fun q =>
                  if q.pid == pid then
                    { q with pid := newPid, status := Status.starting,
                             startedAt := env.now, lastSeenAt := env.now,
                             detected := false }
                  else q) }

/-- Modelled from the spec: `BotManager.toggle_anti_crash` on one record
(spec §4.4) — flips the boolean and returns the new value. -/
def toggleAntiCrash (r : ProcessRecord) : ProcessRecord × Bool :=
  let r2 := { r with antiCrashEnabled := !r.antiCrashEnabled }
  (r2, r2.antiCrashEnabled)

/-- Modelled from the spec: `BotManager.toggle_anti_crash(pid)` at registry
level, reporting the `(success, message)` pair. -/
def toggle_anti_crash (reg : List ProcessRecord) (pid : Nat) : CmdResult :=
  if reg.any (fun r => r.pid == pid) then
    { success := true, message := "Anti-crash toggled",
      registry := reg.map (fun r => if r.pid == pid then (toggleAntiCrash r).1 else r) }
  else
    { success := false, message := "No process found with the given PID",
      registry := reg }

/-- Modelled from the spec: `LaunchController.start` / `BotManager.start_bot`
(spec §4.3) — `ScriptNotFound` when the script path does not exist,
`SpawnFailed` when the OS refuses; on success a new record with
`status=starting`, `detected=false` and `restartCount` inherited from any
prior record of the same profile, else 0. -/
def start_bot (env : Env) (script : String) (profile : String)
    (reg : List ProcessRecord) : CmdResult :=
  if !env.scriptExists script then
    { success := false, message := "ScriptNotFound", registry := reg }
  else
    match env.spawnScript script with
    | none => { success := false, message := "SpawnFailed", registry := reg }
    | some newPid =>
        let inherited :=
          match reg.find? (fun r => r.profile == profile) with
          | some old => old.restartCount
          | none => 0
        let fresh : ProcessRecord :=
          { pid := newPid, profile := profile,
            launchScript := some script, status := Status.starting,
            startedAt := env.now, lastSeenAt := env.now, cpuPercent := 0,
            memoryBytes := 0, restartCount := inherited,
            antiCrashEnabled := true, detected := false, errorMsg := none }
        { success := true, message := "", registry := reg ++ [fresh] }

/-- Bool test: does the list `need` occur at the head of `hay`. -/
def leadsWith : List Char → List Char → Bool
  | _, [] => true
  | [], _ :: _ => false
  | a :: as, b :: bs => a == b && leadsWith as bs

/-- Bool test: does the list `need` occur contiguously anywhere in `hay`
(command-line containment used by the Discovery scan). -/
def containsSeg : List Char → List Char → Bool
  | [], need => leadsWith [] need
  | a :: t, need => leadsWith (a :: t) need || containsSeg t need

/-- Modelled from the spec: the record Discovery inserts for an already
running, unmanaged process (spec §4.5): `detected=true`, `status=running`,
no launch script. -/
def newDetectedRecord (now pid : Nat) : ProcessRecord :=
  { pid := pid, profile := "Detected", launchScript := none,
    status := Status.running, startedAt := now, lastSeenAt := now,
    cpuPercent := 0, memoryBytes := 0, restartCount := 0,
    antiCrashEnabled := false, detected := true, errorMsg := none }

/-- Modelled from the spec: `BotManager.scan_running_bots` / Discovery.scan
(spec §4.5) — walk the OS process list, keep entries whose command line
contains the signature and whose pid is not yet in the registry, insert a
detected record per match and return the count of newly added records. -/
def scan (now : Nat) (sig : List Char) (os : List (Nat × List Char))
    (reg : List ProcessRecord) : Nat × List ProcessRecord :=
  match os with
  | [] => (0, reg)
  | (pid, cmd) :: rest =>
      if containsSeg cmd sig && !(reg.any (fun r => r.pid == pid)) then
        let res := scan now sig rest (reg ++ [newDetectedRecord now pid])
        (res.1 + 1, res.2)
      else scan now sig rest reg

/-- Is a record in a terminal state and stale past the age threshold —
the removal predicate of the cleanup sweep (spec §4.4 cleanup). -/
def cleanupRemovable (ageThreshold now : Nat) (r : ProcessRecord) : Bool :=
  (r.status == Status.stopped || r.status == Status.stopped_manual
      || r.status == Status.crashed)
    && decide (ageThreshold < now - r.lastSeenAt)

/-- Modelled from the spec: `BotManager.cleanup_stopped_processes`
(spec §4.4 cleanup) — delete every terminal-state record whose `lastSeenAt`
is older than the threshold, returning the count removed. -/
def cleanup_stopped_processes (ageThreshold now : Nat)
    (reg : List ProcessRecord) : Nat × List ProcessRecord :=
  match reg with
  | [] => (0, [])
  | r :: rest =>
      let res := cleanup_stopped_processes ageThreshold now rest
      if cleanupRemovable ageThreshold now r then (res.1 + 1, res.2)
      else (res.1, r :: res.2)

/-- Translated from src/main.py lines 1061-1076 (`stop_selected_bots`): each
selected pid is stopped with `manual_stop=True` always; a failure is shown as
an error message and the loop continues with the remaining pids. -/
def stop_selected_bots (selected : List Nat) (reg : List ProcessRecord) :
    List (Bool × String) × List ProcessRecord :=
  match selected with
  | [] => ([], reg)
  | pid :: rest =>
      let res := stopBotById reg pid true
      let tail := stop_selected_bots rest res.registry
      ((res.success, res.message) :: tail.1, tail.2)

/-- Translated from src/main.py lines 1006-1023 (`remove_selected_bots`): each
selected pid is removed; a failure is shown as an error message and the loop
continues with the remaining pids. -/
def remove_selected_bots (alive : Nat → Bool) (selected : List Nat)
    (reg : List ProcessRecord) : List (Bool × String) × List ProcessRecord :=
  match selected with
  | [] => ([], reg)
  | pid :: rest =>
      let res := remove_bot alive reg pid
      let tail := remove_selected_bots alive rest res.registry
      ((res.success, res.message) :: tail.1, tail.2)

/-- Translated from src/main.py lines 1078-1095 (`restart_selected_bots`): each
selected pid is restarted; a failure is shown as an error message and the loop
continues with the remaining pids. -/
def restart_selected_bots (env : Env) (selected : List Nat)
    (reg : List ProcessRecord) : List (Bool × String) × List ProcessRecord :=
  match selected with
  | [] => ([], reg)
  | pid :: rest =>
      let res := restart_bot env reg pid
      let tail := restart_selected_bots env rest res.registry
      ((res.success, res.message) :: tail.1, tail.2)

/-- Translated from src/main.py lines 1097-1114 (`toggle_anti_crash`): each
selected pid has its anti-crash flag toggled; a failure is shown as an error
message and the loop continues with the remaining pids. -/
def toggle_selected_bots (selected : List Nat) (reg : List ProcessRecord) :
    List (Bool × String) × List ProcessRecord :=
  match selected with
  | [] => ([], reg)
  | pid :: rest =>
      let res := toggle_anti_crash reg pid
      let tail := toggle_selected_bots rest res.registry
      ((res.success, res.message) :: tail.1, tail.2)

/-- Translated from src/main.py lines 1025-1059 (`start_selected_bots`): a pid
rendered as Detected is refused with a warning and skipped; a record without a
BAT file is skipped with a warning; otherwise the bot is started from its
script and profile; in every case the loop continues with the remaining pids. -/
def start_selected_bots (env : Env) (selected : List Nat)
    (reg : List ProcessRecord) : List (Bool × String) × List ProcessRecord :=
  match selected with
  | [] => ([], reg)
  | pid :: rest =>
      match reg.find? (fun r => r.pid == pid) with
      | none =>
          let tail := start_selected_bots env rest reg
          ((false, "No process info for the given PID") :: tail.1, tail.2)
      | some r =>
          if r.detected then
            let tail := start_selected_bots env rest reg
            ((false, "Bot was auto-detected and cannot be started directly")
              :: tail.1, tail.2)
          else
            match r.launchScript with
            | none =>
                let tail := start_selected_bots env rest reg
                ((false, "No BAT file information found") :: tail.1, tail.2)
            | some script =>
                let res := start_bot env script r.profile reg
                let tail := start_selected_bots env rest res.registry
                ((res.success, res.message) :: tail.1, tail.2)

/-- State of the `root.after`-driven monitoring scheduler of src/main.py:
how many `monitor_processes` callbacks are queued and how many are currently
executing. -/
structure SchedState where
  pending : Nat
  running : Nat
deriving DecidableEq, Repr

/-- Translated from src/main.py line 72: `__init__` queues exactly one
`monitor_processes` callback. -/
def schedInit : SchedState := { pending := 1, running := 0 }

/-- Translated from src/main.py lines 952-961: a queued callback may start
executing, and a callback that finishes queues exactly one successor from its
`finally` block — the only place a new callback is ever queued. -/
inductive SchedStep : SchedState → SchedState → Prop
  | fire (s : SchedState) : 0 < s.pending →
      SchedStep s { pending := s.pending - 1, running := s.running + 1 }
  | finish (s : SchedState) : 0 < s.running →
      SchedStep s { pending := s.pending + 1, running := s.running - 1 }

/-- Scheduler states reachable from the application start. -/
inductive SchedReachable : SchedState → Prop
  | init : SchedReachable schedInit
  | step {s t : SchedState} : SchedReachable s → SchedStep s t → SchedReachable t

/-- Durable storage as the next load sees it: the active (published) registry
file and the temporary file a save writes into. -/
structure Store where
  active : Option (List Nat)
  temp : Option (List Nat)
deriving DecidableEq, Repr

/-- Modelled from the spec: `Registry.save` (spec §4.2, §5) as a sequence of
atomic steps — the first `d.length` steps stream the serialized data into the
temporary file, and only the final step publishes the temporary file as the
active state.  `saveAt d s k` is the storage state after `k` steps, i.e. the
state a crash after `k` steps leaves behind. -/
def saveAt (d : List Nat) (s : Store) (k : Nat) : Store :=
  if k ≤ d.length then { s with temp := some (d.take k) }
  else { active := some d, temp := some d }

/-- Per-process status snapshot as consumed by the GUI table: modelled from
the values `BotManager.get_all_processes` hands to `update_process_table`
(src/main.py lines 969-1003): `None`, a dict carrying an `error` key, or a
full status dict. -/
inductive ProcStatus
  | noStatus
  | errStatus (msg : String)
  | okStatus (profile statusText uptime cpu memory : String)
      (restarts : Nat) (antiCrash : Bool) (detected : Bool)
deriving DecidableEq, Repr

/-- Row colour tag of the process table (src/main.py lines 983-991). -/
inductive RowTag
  | running
  | crashed
  | stopped
  | manual
  | errorTag
deriving DecidableEq, Repr

/-- One rendered row of the process table. -/
structure Row where
  values : List String
  tag : RowTag
deriving DecidableEq, Repr

/-- Lower-cased character list of a string, matching Python `.lower()` on the
status text. -/
def lowerStr (s : String) : List Char :=
  s.data.map Char.toLower

/-- Translated from src/main.py lines 983-991: colour tag chosen by substring
tests on the lower-cased status text. -/
def statusTag (statusText : String) : RowTag :=
  if containsSeg (lowerStr statusText) ("crashed".data) then RowTag.crashed
  else if containsSeg (lowerStr statusText) ("stopped".data) then
    if containsSeg (lowerStr statusText) ("manual".data) then RowTag.manual
    else RowTag.stopped
  else RowTag.running

/-- Translated from src/main.py lines 972-1004: how one `(pid, status)` entry
becomes a table row — a `None` status is skipped, a status with an `error` key
becomes a dedicated Error row, and a full status becomes a data row. -/
def renderEntry (pid : Nat) (st : ProcStatus) : Option Row :=
  match st with
  | ProcStatus.noStatus => none
  | ProcStatus.errStatus msg =>
      some { values := [toString pid, "Error", msg, "", "", "", "", "", ""],
             tag := RowTag.errorTag }
  | ProcStatus.okStatus profile statusText uptime cpu memory restarts anti det =>
      some { values := [toString pid, profile, statusText, uptime, cpu, memory,
                        toString restarts,
                        if anti then "Yes" else "No",
                        if det then "Detected" else "Managed"],
             tag := statusTag statusText }

/-- Translated from src/main.py lines 963-1004 (`update_process_table`): the
whole snapshot is rendered entry by entry. -/
def update_process_table (procs : List (Nat × ProcStatus)) : List Row :=
  procs.filterMap (fun p => renderEntry p.1 p.2)

/-- A concrete managed record used to instantiate the theorems. -/
def rEx : ProcessRecord :=
  { pid := 7, profile := "A", launchScript := some "a.bat",
    status := Status.running, startedAt := 0, lastSeenAt := 0,
    cpuPercent := 0, memoryBytes := 0, restartCount := 0,
    antiCrashEnabled := true, detected := false, errorMsg := none }

/-- A concrete environment used to instantiate the theorems. -/
def envEx : Env :=
  { query := fun _ => QueryResult.notFound,
    spawn := fun p => some (p + 1000),
    spawnScript := fun _ => some 4242,
    scriptExists := fun _ => true,
    backoffElapsed := fun _ => true,
    now := 100 }

/-- A concrete registry used to instantiate the theorems. -/
def regEx : List ProcessRecord := [rEx, newDetectedRecord 0 9]

/-- A concrete liveness oracle used to instantiate the theorems. -/
def aliveEx : Nat → Bool := fun _ => true

/-- Translated from src/main.py lines 939-944 (`scan_running_bots`): the GUI
scan command always succeeds and reports the count of processes found in its
status message. -/
def scan_running_bots_cmd (now : Nat) (sig : List Char)
    (os : List (Nat × List Char)) (reg : List ProcessRecord) :
    (Bool × String) × List ProcessRecord :=
  let res := scan now sig os reg
  ((true, "Found " ++ toString res.1 ++ " running bot processes"), res.2)

/-- Translated from src/main.py lines 946-950 (`cleanup_stopped_processes`):
the GUI cleanup command always succeeds and reports the count of processes
removed in its status message. -/
def cleanup_cmd (ageThreshold now : Nat) (reg : List ProcessRecord) :
    (Bool × String) × List ProcessRecord :=
  let res := cleanup_stopped_processes ageThreshold now reg
  ((true, "Removed " ++ toString res.1 ++ " old processes"), res.2)

/-- Mapping a projection over an elementwise rewrite that preserves the
projection is a no-op. -/
theorem map_proj_of_pointwise {α β : Type} (f : α → α) (g : α → β)
    (h : ∀ x, g (f x) = g x) (l : List α) : (l.map f).map g = l.map g := by
  induction l with
  | nil => rfl
  | cons a t ih => simp [h, ih]

/-- Mapping an elementwise involution twice is the identity. -/
theorem map_self_inverse {α : Type} {f : α → α}
    (hf : ∀ x, f (f x) = x) (l : List α) : (l.map f).map f = l := by
  induction l with
  | nil => rfl
  | cons a t ih => simp [hf, ih]

/-- Toggling preserves the pid of the per-pid registry rewrite. -/
theorem toggle_any_pid (reg : List ProcessRecord) (p : Nat) :
    ((reg.map (fun r => if r.pid == p then (toggleAntiCrash r).1 else r)).any
        (fun r => r.pid == p))
      = reg.any (fun r => r.pid == p) := by
  induction reg with
  | nil => rfl
  | cons a t ih =>
      simp only [List.map_cons, List.any_cons, ih]
      by_cases h : a.pid == p
      · simp [h, toggleAntiCrash]
      · simp [h]

/-- C6: `toggleAntiCrash` flips the `antiCrashEnabled` boolean and returns the
new value; applying it twice restores the record exactly (nothing else
changes), and at registry level two toggles of the same pid restore the
registry. -/
theorem toggle_flip_involutive (r : ProcessRecord) (reg : List ProcessRecord)
    (p : Nat) :
    (toggleAntiCrash r).2 = !r.antiCrashEnabled
    ∧ (toggleAntiCrash r).1.antiCrashEnabled = !r.antiCrashEnabled
    ∧ (toggleAntiCrash (toggleAntiCrash r).1).1 = r
    ∧ { (toggleAntiCrash r).1 with antiCrashEnabled := r.antiCrashEnabled } = r
    ∧ (toggle_anti_crash (toggle_anti_crash reg p).registry p).registry = reg := by
  refine ⟨rfl, rfl, by simp [toggleAntiCrash], by simp [toggleAntiCrash], ?_⟩
  by_cases h : reg.any (fun q => q.pid == p)
  · simp only [toggle_anti_crash, h, if_true, toggle_any_pid]
    refine map_self_inverse ?_ reg
    intro x
    by_cases hx : x.pid == p
    · simp [hx, toggleAntiCrash]
    · simp [hx]
  · simp [toggle_anti_crash, h]

/-- Witness for C6 at a concrete record and registry. -/
theorem toggle_flip_involutive_witness :
    (toggleAntiCrash rEx).2 = !rEx.antiCrashEnabled
    ∧ (toggleAntiCrash rEx).1.antiCrashEnabled = !rEx.antiCrashEnabled
    ∧ (toggleAntiCrash (toggleAntiCrash rEx).1).1 = rEx
    ∧ { (toggleAntiCrash rEx).1 with antiCrashEnabled := rEx.antiCrashEnabled } = rEx
    ∧ (toggle_anti_crash (toggle_anti_crash regEx 7).registry 7).registry = regEx :=
  toggle_flip_involutive rEx regEx 7

/-- C9: a crash after any number `k` of atomic save steps leaves the active
state either untouched (all steps up to and including the last temp write) or
fully published; the published value is exactly the saved data and a partial
temp write is never the active state. -/
theorem save_atomic (d : List Nat) (s : Store) (k : Nat) :
    (saveAt d s k).active = (if k ≤ d.length then s.active else some d)
    ∧ (saveAt d s (d.length + 1)).active = some d := by
  constructor
  · unfold saveAt
    split <;> simp_all
  · simp [saveAt]

/-- Witness for C9 at concrete data. -/
theorem save_atomic_witness :
    (saveAt [1, 2, 3] { active := some [9], temp := none } 2).active
        = (if 2 ≤ [1, 2, 3].length then some [9] else some [1, 2, 3])
    ∧ (saveAt [1, 2, 3] { active := some [9], temp := none } ([1, 2, 3].length + 1)).active
        = some [1, 2, 3] :=
  save_atomic [1, 2, 3] { active := some [9], temp := none } 2

/-- C8: in the `root.after` scheduling discipline of src/main.py, every
reachable scheduler state has exactly one monitoring callback in flight in
total (queued or executing), so two ticks never overlap. -/
theorem monitor_no_overlap (s : SchedState) (h : SchedReachable s) :
    s.pending + s.running = 1 ∧ s.running ≤ 1 := by
  have key : s.pending + s.running = 1 := by
    induction h with
    | init => rfl
    | step hr hstep ih =>
        cases hstep with
        | fire ht => simp only []; omega
        | finish ht => simp only []; omega
  exact ⟨key, by omega⟩

/-- Witness for C8 at the initial scheduler state. -/
theorem monitor_no_overlap_witness :
    schedInit.pending + schedInit.running = 1 ∧ schedInit.running ≤ 1 :=
  monitor_no_overlap schedInit SchedReachable.init

/-- C10: snapshot rendering is total and per-record: rendering distributes
over list concatenation (so one record never affects the rendering of the
others), a `None` status is skipped, and an `error`-keyed status becomes a
dedicated Error row. -/
theorem snapshot_render_total (xs ys : List (Nat × ProcStatus)) (p : Nat)
    (msg : String) :
    update_process_table (xs ++ ys)
        = update_process_table xs ++ update_process_table ys
    ∧ renderEntry p ProcStatus.noStatus = none
    ∧ update_process_table ((p, ProcStatus.noStatus) :: ys) = update_process_table ys
    ∧ renderEntry p (ProcStatus.errStatus msg)
        = some { values := [toString p, "Error", msg, "", "", "", "", "", ""],
                 tag := RowTag.errorTag }
    ∧ update_process_table ((p, ProcStatus.errStatus msg) :: ys)
        = { values := [toString p, "Error", msg, "", "", "", "", "", ""],
            tag := RowTag.errorTag } :: update_process_table ys := by
  refine ⟨?_, rfl, ?_, rfl, ?_⟩
  · simp [update_process_table]
  · simp [update_process_table, renderEntry]
  · simp [update_process_table, renderEntry]

/-- Witness for C10 at a concrete snapshot. -/
theorem snapshot_render_total_witness :
    update_process_table ([(1, ProcStatus.noStatus)] ++ [(2, ProcStatus.errStatus "boom")])
        = update_process_table [(1, ProcStatus.noStatus)]
            ++ update_process_table [(2, ProcStatus.errStatus "boom")]
    ∧ renderEntry 1 ProcStatus.noStatus = none
    ∧ update_process_table ((1, ProcStatus.noStatus) :: [(2, ProcStatus.errStatus "boom")])
        = update_process_table [(2, ProcStatus.errStatus "boom")]
    ∧ renderEntry 1 (ProcStatus.errStatus "boom")
        = some { values := [toString 1, "Error", "boom", "", "", "", "", "", ""],
                 tag := RowTag.errorTag }
    ∧ update_process_table ((1, ProcStatus.errStatus "boom") :: [(2, ProcStatus.errStatus "boom")])
        = { values := [toString 1, "Error", "boom", "", "", "", "", "", ""],
            tag := RowTag.errorTag } :: update_process_table [(2, ProcStatus.errStatus "boom")] :=
  snapshot_render_total [(1, ProcStatus.noStatus)] [(2, ProcStatus.errStatus "boom")] 1 "boom"

/-- The cleanup sweep keeps exactly the records its predicate does not mark. -/
theorem cleanup_registry_eq (a now : Nat) (reg : List ProcessRecord) :
    (cleanup_stopped_processes a now reg).2
      = reg.filter (fun r => !cleanupRemovable a now r) := by
  induction reg with
  | nil => rfl
  | cons r t ih =>
      simp only [cleanup_stopped_processes, List.filter_cons]
      by_cases h : cleanupRemovable a now r
      · simp [h, ih]
      · simp [h, ih]

/-- The cleanup sweep counts exactly the records its predicate marks. -/
theorem cleanup_count_eq (a now : Nat) (reg : List ProcessRecord) :
    (cleanup_stopped_processes a now reg).1
      = (reg.filter (fun r => cleanupRemovable a now r)).length := by
  induction reg with
  | nil => rfl
  | cons r t ih =>
      simp only [cleanup_stopped_processes, List.filter_cons]
      by_cases h : cleanupRemovable a now r
      · simp [h, ih]
      · simp [h, ih]

/-- C5: `cleanup(ageThreshold)` removes exactly the records whose status is in
`{stopped, stopped_manual, crashed}` and whose `lastSeenAt` is older than the
threshold, no others, and returns the count removed. -/
theorem cleanup_exact (a now : Nat) (reg : List ProcessRecord) :
    (cleanup_stopped_processes a now reg).2
        = reg.filter (fun r => !cleanupRemovable a now r)
    ∧ (cleanup_stopped_processes a now reg).1
        = (reg.filter (fun r => cleanupRemovable a now r)).length
    ∧ ∀ r : ProcessRecord,
        r ∈ (cleanup_stopped_processes a now reg).2
          ↔ r ∈ reg
            ∧ ¬((r.status = Status.stopped ∨ r.status = Status.stopped_manual
                  ∨ r.status = Status.crashed)
                ∧ a < now - r.lastSeenAt) := by
  refine ⟨cleanup_registry_eq a now reg, cleanup_count_eq a now reg, ?_⟩
  intro r
  rw [cleanup_registry_eq, List.mem_filter]
  constructor
  · rintro ⟨hmem, hpred⟩
    refine ⟨hmem, ?_⟩
    simp only [cleanupRemovable, Bool.not_eq_true', Bool.and_eq_false_iff,
      Bool.or_eq_false_iff, beq_eq_false_iff_ne, decide_eq_false_iff_not] at hpred
    rintro ⟨hst, hage⟩
    rcases hpred with ⟨⟨h1, h2⟩, h3⟩ | h4
    · rcases hst with h | h | h
      · exact h1 h
      · exact h2 h
      · exact h3 h
    · exact h4 hage
  · rintro ⟨hmem, hpred⟩
    refine ⟨hmem, ?_⟩
    simp only [cleanupRemovable, Bool.not_eq_true', Bool.and_eq_false_iff,
      Bool.or_eq_false_iff, beq_eq_false_iff_ne, decide_eq_false_iff_not]
    by_cases hage : a < now - r.lastSeenAt
    · left
      refine ⟨⟨?_, ?_⟩, ?_⟩ <;> intro h <;> exact hpred ⟨by simp [h], hage⟩
    · right; exact hage

/-- Witness for C5 at a concrete registry. -/
theorem cleanup_exact_witness :
    (cleanup_stopped_processes 5 100 regEx).2
        = regEx.filter (fun r => !cleanupRemovable 5 100 r)
    ∧ (cleanup_stopped_processes 5 100 regEx).1
        = (regEx.filter (fun r => cleanupRemovable 5 100 r)).length
    ∧ ∀ r : ProcessRecord,
        r ∈ (cleanup_stopped_processes 5 100 regEx).2
          ↔ r ∈ regEx
            ∧ ¬((r.status = Status.stopped ∨ r.status = Status.stopped_manual
                  ∨ r.status = Status.crashed)
                ∧ 5 < 100 - r.lastSeenAt) :=
  cleanup_exact 5 100 regEx

/-- The GUI stop loop reports one result per selected pid. -/
theorem stop_selected_length (sel : List Nat) (reg : List ProcessRecord) :
    (stop_selected_bots sel reg).1.length = sel.length := by
  induction sel generalizing reg with
  | nil => rfl
  | cons p rest ih => simp [stop_selected_bots, ih]

/-- The GUI remove loop reports one result per selected pid. -/
theorem remove_selected_length (alive : Nat → Bool) (sel : List Nat)
    (reg : List ProcessRecord) :
    (remove_selected_bots alive sel reg).1.length = sel.length := by
  induction sel generalizing reg with
  | nil => rfl
  | cons p rest ih => simp [remove_selected_bots, ih]

/-- The GUI restart loop reports one result per selected pid. -/
theorem restart_selected_length (env : Env) (sel : List Nat)
    (reg : List ProcessRecord) :
    (restart_selected_bots env sel reg).1.length = sel.length := by
  induction sel generalizing reg with
  | nil => rfl
  | cons p rest ih => simp [restart_selected_bots, ih]

/-- The GUI toggle loop reports one result per selected pid. -/
theorem toggle_selected_length (sel : List Nat) (reg : List ProcessRecord) :
    (toggle_selected_bots sel reg).1.length = sel.length := by
  induction sel generalizing reg with
  | nil => rfl
  | cons p rest ih => simp [toggle_selected_bots, ih]

/-- The GUI start loop reports one result per selected pid. -/
theorem start_selected_length (env : Env) (sel : List Nat)
    (reg : List ProcessRecord) :
    (start_selected_bots env sel reg).1.length = sel.length := by
  induction sel generalizing reg with
  | nil => rfl
  | cons p rest ih =>
      simp only [start_selected_bots]
      cases hf : reg.find? (fun r => r.pid == p) with
      | none => simp [ih]
      | some r =>
          by_cases hd : r.detected
          · simp [hd, ih]
          · cases hls : r.launchScript with
            | none => simp [hd, hls, ih]
            | some s => simp [hd, hls, ih]

/-- C7: every GUI-surface command — scan, start, stop, restart,
toggleAntiCrash, remove and cleanup — reports a `(success, message)` pair with
a nonempty human-readable message on failure (scan and cleanup always succeed
and report the affected count), each batch loop processes every selected
record even when earlier ones fail, and a tick processes every record of the
registry. -/
theorem commands_report_and_continue (alive : Nat → Bool) (env : Env)
    (sel : List Nat) (reg : List ProcessRecord) (p : Nat) (sc pf : String)
    (n1 n2 a : Nat) (sig : List Char) (os : List (Nat × List Char)) :
    (stop_selected_bots sel reg).1.length = sel.length
    ∧ (remove_selected_bots alive sel reg).1.length = sel.length
    ∧ (restart_selected_bots env sel reg).1.length = sel.length
    ∧ (toggle_selected_bots sel reg).1.length = sel.length
    ∧ (start_selected_bots env sel reg).1.length = sel.length
    ∧ ((remove_bot alive reg p).success = false →
        (remove_bot alive reg p).message ≠ "")
    ∧ ((stopBotById reg p true).success = false →
        (stopBotById reg p true).message ≠ "")
    ∧ ((restart_bot env reg p).success = false →
        (restart_bot env reg p).message ≠ "")
    ∧ ((toggle_anti_crash reg p).success = false →
        (toggle_anti_crash reg p).message ≠ "")
    ∧ ((start_bot env sc pf reg).success = false →
        (start_bot env sc pf reg).message ≠ "")
    ∧ (scan_running_bots_cmd n1 sig os reg).1.1 = true
    ∧ (scan_running_bots_cmd n1 sig os reg).1.2 ≠ ""
    ∧ (cleanup_cmd a n2 reg).1.1 = true
    ∧ (cleanup_cmd a n2 reg).1.2 ≠ ""
    ∧ (tick env reg).length = reg.length := by
  refine ⟨stop_selected_length sel reg, remove_selected_length alive sel reg,
    restart_selected_length env sel reg, toggle_selected_length sel reg,
    start_selected_length env sel reg, ?_, ?_, ?_, ?_, ?_, rfl, ?_, rfl, ?_,
    by simp [tick]⟩
  · unfold remove_bot
    split
    · intro _; simp
    · split
      · intro _; simp
      · intro h; simp at h
  · unfold stopBotById
    split
    · intro h; simp at h
    · intro _; simp
  · unfold restart_bot
    split
    · intro _; simp
    · split
      · intro _; simp
      · split
        · intro _; simp
        · intro h; simp at h
  · unfold toggle_anti_crash
    split
    · intro h; simp at h
    · intro _; simp
  · unfold start_bot
    split
    · intro _; simp
    · split
      · intro _; simp
      · intro h; simp at h
  · simp only [scan_running_bots_cmd]
    intro h
    have hlen := congrArg String.length h
    simp [String.length_append] at hlen
    exact absurd hlen.1.1 (by decide)
  · simp only [cleanup_cmd]
    intro h
    have hlen := congrArg String.length h
    simp [String.length_append] at hlen
    exact absurd hlen.1.1 (by decide)

/-- Witness for C7 at a concrete failing remove (the detected record is still
alive, so removal fails with a nonempty message) and concrete batches. -/
theorem commands_report_witness :
    (stop_selected_bots [7, 9] regEx).1.length = [7, 9].length
    ∧ (remove_selected_bots aliveEx [7, 9] regEx).1.length = [7, 9].length
    ∧ (restart_selected_bots envEx [7, 9] regEx).1.length = [7, 9].length
    ∧ (toggle_selected_bots [7, 9] regEx).1.length = [7, 9].length
    ∧ (start_selected_bots envEx [7, 9] regEx).1.length = [7, 9].length
    ∧ ((remove_bot aliveEx regEx 7).success = false →
        (remove_bot aliveEx regEx 7).message ≠ "")
    ∧ ((stopBotById regEx 7 true).success = false →
        (stopBotById regEx 7 true).message ≠ "")
    ∧ ((restart_bot envEx regEx 7).success = false →
        (restart_bot envEx regEx 7).message ≠ "")
    ∧ ((toggle_anti_crash regEx 7).success = false →
        (toggle_anti_crash regEx 7).message ≠ "")
    ∧ ((start_bot envEx "a.bat" "A" regEx).success = false →
        (start_bot envEx "a.bat" "A" regEx).message ≠ "")
    ∧ (scan_running_bots_cmd 0 ("bot.jar".data) [(3, "java -jar bot.jar".data)] regEx).1.1 = true
    ∧ (scan_running_bots_cmd 0 ("bot.jar".data) [(3, "java -jar bot.jar".data)] regEx).1.2 ≠ ""
    ∧ (cleanup_cmd 5 100 regEx).1.1 = true
    ∧ (cleanup_cmd 5 100 regEx).1.2 ≠ ""
    ∧ (tick envEx regEx).length = regEx.length :=
  commands_report_and_continue aliveEx envEx [7, 9] regEx 7 "a.bat" "A" 0 100 5
    ("bot.jar".data) [(3, "java -jar bot.jar".data)]

/-- A scan only appends to the registry. -/
theorem scan_append (now : Nat) (sig : List Char) (os : List (Nat × List Char))
    (reg : List ProcessRecord) :
    ∃ tail, (scan now sig os reg).2 = reg ++ tail := by
  induction os generalizing reg with
  | nil => exact ⟨[], by simp [scan]⟩
  | cons pc rest ih =>
      obtain ⟨pid, cmd⟩ := pc
      by_cases hb : containsSeg cmd sig && !(reg.any (fun r => r.pid == pid))
      · simp only [scan, hb, if_true]
        obtain ⟨tail, ht⟩ := ih (reg ++ [newDetectedRecord now pid])
        exact ⟨[newDetectedRecord now pid] ++ tail, by simp [ht]⟩
      · simp only [scan, hb, if_false]
        exact ih reg

/-- After a scan, every matching OS pid is present in the registry. -/
theorem scan_covers (now : Nat) (sig : List Char) (os : List (Nat × List Char))
    (reg : List ProcessRecord) (pc : Nat × List Char) (hmem : pc ∈ os)
    (hsig : containsSeg pc.2 sig = true) :
    ((scan now sig os reg).2.any (fun r => r.pid == pc.1)) = true := by
  induction os generalizing reg with
  | nil => cases hmem
  | cons qc rest ih =>
      obtain ⟨q, c⟩ := qc
      cases hb : (containsSeg c sig && !(reg.any (fun r => r.pid == q))) with
      | true =>
          simp only [scan, hb, if_true]
          rcases List.mem_cons.mp hmem with he | ht
          · obtain ⟨tail, htail⟩ :=
              scan_append now sig rest (reg ++ [newDetectedRecord now q])
            rw [htail]
            have hpq : pc.1 = q := by rw [he]
            simp [List.any_append, newDetectedRecord, hpq]
          · exact ih (reg ++ [newDetectedRecord now q]) ht
      | false =>
          simp only [scan, hb, Bool.false_eq_true, if_false]
          rcases List.mem_cons.mp hmem with he | ht
          · have hq : containsSeg c sig = true := by
              have hc2 : pc.2 = c := by rw [he]
              rw [← hc2]; exact hsig
            have hany : reg.any (fun r => r.pid == q) = true := by
              cases hh : reg.any (fun r => r.pid == q) with
              | true => rfl
              | false =>
                  rw [hq, hh] at hb
                  simp at hb
            obtain ⟨tail, htail⟩ := scan_append now sig rest reg
            rw [htail]
            have hpq : pc.1 = q := by rw [he]
            simp only [List.any_append, hpq, hany, Bool.true_or]
          · exact ih reg ht

/-- A scan over an OS list whose every matching pid is already registered adds
nothing and returns 0. -/
theorem scan_noop (now : Nat) (sig : List Char) (os : List (Nat × List Char))
    (reg : List ProcessRecord)
    (hall : ∀ pc ∈ os, containsSeg pc.2 sig = true →
      reg.any (fun r => r.pid == pc.1) = true) :
    scan now sig os reg = (0, reg) := by
  induction os with
  | nil => rfl
  | cons qc rest ih =>
      obtain ⟨q, c⟩ := qc
      cases hc : containsSeg c sig with
      | true =>
          have hany : reg.any (fun r => r.pid == q) = true :=
            hall (q, c) (List.mem_cons_self _ _) hc
          have hb : (containsSeg c sig && !(reg.any (fun r => r.pid == q))) = false := by
            rw [hc, hany]; rfl
          simp only [scan, hb, Bool.false_eq_true, if_false]
          exact ih (fun pc hpc hs => hall pc (List.mem_cons_of_mem _ hpc) hs)
      | false =>
          have hb : (containsSeg c sig && !(reg.any (fun r => r.pid == q))) = false := by
            rw [hc]; rfl
          simp only [scan, hb, Bool.false_eq_true, if_false]
          exact ih (fun pc hpc hs => hall pc (List.mem_cons_of_mem _ hpc) hs)

/-- The registry grows by exactly the number of records a scan reports. -/
theorem scan_length (now : Nat) (sig : List Char) (os : List (Nat × List Char))
    (reg : List ProcessRecord) :
    (scan now sig os reg).2.length = reg.length + (scan now sig os reg).1 := by
  induction os generalizing reg with
  | nil => simp [scan]
  | cons qc rest ih =>
      obtain ⟨q, c⟩ := qc
      cases hb : (containsSeg c sig && !(reg.any (fun r => r.pid == q))) with
      | true =>
          simp only [scan, hb, if_true]
          have := ih (reg ++ [newDetectedRecord now q])
          simp only [List.length_append, List.length_cons, List.length_nil] at this
          omega
      | false =>
          simp only [scan, hb, Bool.false_eq_true, if_false]
          exact ih reg

/-- Every record present after a scan was present before or is a freshly
detected running record without a launch script. -/
theorem scan_mem (now : Nat) (sig : List Char) (os : List (Nat × List Char))
    (reg : List ProcessRecord) (r2 : ProcessRecord)
    (hmem : r2 ∈ (scan now sig os reg).2) :
    r2 ∈ reg ∨ (r2.detected = true ∧ r2.status = Status.running
      ∧ r2.launchScript = none) := by
  induction os generalizing reg with
  | nil => left; simpa [scan] using hmem
  | cons qc rest ih =>
      obtain ⟨q, c⟩ := qc
      cases hb : (containsSeg c sig && !(reg.any (fun r => r.pid == q))) with
      | true =>
          simp only [scan, hb, if_true] at hmem
          rcases ih (reg ++ [newDetectedRecord now q]) hmem with hin | hnew
          · rcases List.mem_append.mp hin with h | h
            · exact Or.inl h
            · right
              have : r2 = newDetectedRecord now q := by simpa using h
              rw [this]
              exact ⟨rfl, rfl, rfl⟩
          · exact Or.inr hnew
      | false =>
          simp only [scan, hb, Bool.false_eq_true, if_false] at hmem
          exact ih reg hmem

/-- C4: a scan returns exactly the count of newly added records, each new
record is a `detected=true, status=running` record, and a second scan over
the same OS list adds nothing and returns 0. -/
theorem scan_count_idempotent (now now2 : Nat) (sig : List Char)
    (os : List (Nat × List Char)) (reg : List ProcessRecord) :
    (scan now sig os reg).2.length = reg.length + (scan now sig os reg).1
    ∧ (∀ r2 ∈ (scan now sig os reg).2,
        r2 ∈ reg ∨ (r2.detected = true ∧ r2.status = Status.running
          ∧ r2.launchScript = none))
    ∧ scan now2 sig os (scan now sig os reg).2 = (0, (scan now sig os reg).2) := by
  refine ⟨scan_length now sig os reg,
    fun r2 h => scan_mem now sig os reg r2 h, ?_⟩
  exact scan_noop now2 sig os _ (fun pc hpc hs => scan_covers now sig os reg pc hpc hs)

/-- Witness for C4: scanning two unmanaged bot.jar processes into an empty
registry adds two detected running records; a second scan returns 0. -/
theorem scan_count_idempotent_witness :
    (scan 0 ("bot.jar".data) [(3, "java -jar bot.jar".data), (4, "java -jar bot.jar two".data)] []).2.length
        = ([] : List ProcessRecord).length
          + (scan 0 ("bot.jar".data) [(3, "java -jar bot.jar".data), (4, "java -jar bot.jar two".data)] []).1
    ∧ (∀ r2 ∈ (scan 0 ("bot.jar".data) [(3, "java -jar bot.jar".data), (4, "java -jar bot.jar two".data)] []).2,
        r2 ∈ ([] : List ProcessRecord)
          ∨ (r2.detected = true ∧ r2.status = Status.running ∧ r2.launchScript = none))
    ∧ scan 1 ("bot.jar".data) [(3, "java -jar bot.jar".data), (4, "java -jar bot.jar two".data)]
          (scan 0 ("bot.jar".data) [(3, "java -jar bot.jar".data), (4, "java -jar bot.jar two".data)] []).2
        = (0, (scan 0 ("bot.jar".data) [(3, "java -jar bot.jar".data), (4, "java -jar bot.jar two".data)] []).2) :=
  scan_count_idempotent 0 1 ("bot.jar".data)
    [(3, "java -jar bot.jar".data), (4, "java -jar bot.jar two".data)] []

/-- The restart policy leaves a record `crashed` or relaunches it `starting`. -/
theorem crashResponse_status (env : Env) (r : ProcessRecord) :
    (crashResponse env r).status = Status.crashed
    ∨ (crashResponse env r).status = Status.starting := by
  unfold crashResponse
  cases hls : r.launchScript with
  | none => left; rfl
  | some s =>
      by_cases h : r.antiCrashEnabled && env.backoffElapsed r.pid
      · rw [if_pos h]
        cases hs : env.spawn r.pid with
        | none => left; rfl
        | some q => right; rfl
      · rw [if_neg h]; left; rfl

/-- With the anti-crash flag off the restart policy leaves the record crashed. -/
theorem crashResponse_no_anti (env : Env) (r : ProcessRecord)
    (h : r.antiCrashEnabled = false) :
    (crashResponse env r).status = Status.crashed := by
  unfold crashResponse
  cases hls : r.launchScript with
  | none => rfl
  | some s =>
      rw [if_neg (by simp [h])]

/-- The restart policy keeps `restartCount` or raises it by exactly one. -/
theorem crashResponse_restartCount (env : Env) (r : ProcessRecord) :
    (crashResponse env r).restartCount = r.restartCount
    ∨ (crashResponse env r).restartCount = r.restartCount + 1 := by
  unfold crashResponse
  cases hls : r.launchScript with
  | none => left; rfl
  | some s =>
      by_cases h : r.antiCrashEnabled && env.backoffElapsed r.pid
      · rw [if_pos h]
        cases hs : env.spawn r.pid with
        | none => left; rfl
        | some q => right; rfl
      · rw [if_neg h]; left; rfl

/-- Classification never touches `restartCount`. -/
theorem classifyLoss_restartCount (r : ProcessRecord) :
    (classifyLoss r).restartCount = r.restartCount := by
  unfold classifyLoss
  split <;> rfl

/-- A tick keeps `restartCount` or raises it by exactly one. -/
theorem tickRecord_restartCount (env : Env) (r : ProcessRecord) :
    (tickRecord env r).restartCount = r.restartCount
    ∨ (tickRecord env r).restartCount = r.restartCount + 1 := by
  unfold tickRecord
  split
  · split
    · left; rfl
    · simp only [lossResponse]
      split
      · have hcl := classifyLoss_restartCount r
        rcases crashResponse_restartCount env (classifyLoss r) with h | h
        · left; rw [h, hcl]
        · right; rw [h, hcl]
      · left; exact classifyLoss_restartCount r
    · left; rfl
  · left; rfl

/-- After a manual registry-level stop, every record carrying the stopped pid
is `stopped_manual`. -/
theorem stopBotById_pid_status (reg : List ProcessRecord) (p : Nat)
    (r2 : ProcessRecord) (hmem : r2 ∈ (stopBotById reg p true).registry)
    (hpid : r2.pid = p) : r2.status = Status.stopped_manual := by
  unfold stopBotById at hmem
  by_cases h : reg.any (fun r => r.pid == p)
  · rw [if_pos h] at hmem
    simp only [List.mem_map] at hmem
    obtain ⟨r, hr, hfr⟩ := hmem
    by_cases hc : r.pid == p
    · rw [if_pos hc] at hfr
      rw [← hfr]
      rfl
    · rw [if_neg hc] at hfr
      rw [← hfr] at hpid
      exact absurd (by simp [hpid]) hc
  · rw [if_neg h] at hmem
    exfalso
    exact h (List.any_eq_true.mpr ⟨r2, hmem, by simp [hpid]⟩)

/-- A registry-level stop of one pid leaves all other records untouched. -/
theorem stopBotById_other (reg : List ProcessRecord) (p : Nat) (m : Bool)
    (r2 : ProcessRecord) (hmem : r2 ∈ (stopBotById reg p m).registry)
    (hpid : r2.pid ≠ p) : r2 ∈ reg := by
  unfold stopBotById at hmem
  by_cases h : reg.any (fun r => r.pid == p)
  · rw [if_pos h] at hmem
    simp only [List.mem_map] at hmem
    obtain ⟨r, hr, hfr⟩ := hmem
    by_cases hc : r.pid == p
    · rw [if_pos hc] at hfr
      exfalso
      apply hpid
      rw [← hfr]
      simpa [stop_bot] using (by simpa using hc : r.pid = p)
    · rw [if_neg hc] at hfr
      rw [← hfr]
      exact hr
  · rw [if_neg h] at hmem
    exact hmem

/-- Records whose pid is not in the selection pass through the GUI stop loop
unchanged. -/
theorem stop_selected_pass (sel : List Nat) (reg : List ProcessRecord)
    (r2 : ProcessRecord) (hmem : r2 ∈ (stop_selected_bots sel reg).2)
    (hp : r2.pid ∉ sel) : r2 ∈ reg := by
  induction sel generalizing reg with
  | nil => simpa [stop_selected_bots] using hmem
  | cons p rest ih =>
      simp only [stop_selected_bots] at hmem
      have h1 : r2.pid ∉ rest := fun hc => hp (List.mem_cons_of_mem _ hc)
      have h2 : r2.pid ≠ p := fun hc => hp (hc ▸ List.mem_cons_self _ _)
      exact stopBotById_other reg p true r2 (ih _ hmem h1) h2

/-- Every record the GUI stop loop touched ends `stopped_manual`. -/
theorem stop_selected_manual (sel : List Nat) (reg : List ProcessRecord)
    (r2 : ProcessRecord) (hmem : r2 ∈ (stop_selected_bots sel reg).2)
    (hp : r2.pid ∈ sel) : r2.status = Status.stopped_manual := by
  induction sel generalizing reg with
  | nil => cases hp
  | cons p rest ih =>
      simp only [stop_selected_bots] at hmem
      by_cases hr : r2.pid ∈ rest
      · exact ih _ hmem hr
      · have hpp : r2.pid = p := by
          rcases List.mem_cons.mp hp with h | h
          · exact h
          · exact absurd h hr
        have hmem2 : r2 ∈ (stopBotById reg p true).registry :=
          stop_selected_pass rest _ r2 hmem hr
        exact stopBotById_pid_status reg p r2 hmem2 hpp

/-- C1: when a `running` record's pid is gone at the next tick, classification
marks it `crashed` (the full tick then leaves it `crashed` or relaunches it as
`starting`, and with anti-crash off it stays `crashed`); a record manually
stopped between ticks is `stopped_manual` after the tick and never `crashed`;
and the GUI stop loop always passes the manual flag, so every record it
stopped reads `stopped_manual` at classification time. -/
theorem crash_vs_manual_stop (env : Env) (r : ProcessRecord)
    (hrun : r.status = Status.running)
    (hq : env.query r.pid = QueryResult.notFound) :
    ((classifyLoss r).status = Status.crashed
      ∧ ((tickRecord env r).status = Status.crashed
          ∨ (tickRecord env r).status = Status.starting)
      ∧ (r.antiCrashEnabled = false → (tickRecord env r).status = Status.crashed)
      ∧ (tickRecord env (stop_bot true r)).status = Status.stopped_manual
      ∧ (tickRecord env (stop_bot true r)).status ≠ Status.crashed)
    ∧ ∀ (sel : List Nat) (reg : List ProcessRecord) (r2 : ProcessRecord),
        r2 ∈ (stop_selected_bots sel reg).2 → r2.pid ∈ sel →
        r2.status = Status.stopped_manual := by
  have htick : tickRecord env r = crashResponse env { r with status := Status.crashed } := by
    simp [tickRecord, hrun, hq, lossResponse, classifyLoss]
  have hstop : tickRecord env (stop_bot true r) = stop_bot true r := by
    simp [tickRecord, stop_bot]
  refine ⟨⟨?_, ?_, ?_, ?_, ?_⟩, fun sel reg r2 h1 h2 => stop_selected_manual sel reg r2 h1 h2⟩
  · simp [classifyLoss, hrun]
  · rw [htick]
    exact crashResponse_status env { r with status := Status.crashed }
  · intro hac
    rw [htick]
    exact crashResponse_no_anti env _ hac
  · rw [hstop]
    rfl
  · rw [hstop]
    simp [stop_bot]

/-- Witness for C1 at a concrete running record whose pid has vanished. -/
theorem crash_vs_manual_stop_witness :
    (classifyLoss rEx).status = Status.crashed
    ∧ ((tickRecord envEx rEx).status = Status.crashed
        ∨ (tickRecord envEx rEx).status = Status.starting)
    ∧ (rEx.antiCrashEnabled = false → (tickRecord envEx rEx).status = Status.crashed)
    ∧ (tickRecord envEx (stop_bot true rEx)).status = Status.stopped_manual
    ∧ (tickRecord envEx (stop_bot true rEx)).status ≠ Status.crashed :=
  (crash_vs_manual_stop envEx rEx rfl rfl).1

/-- An automatic crash-restart raises `restartCount` by exactly one, relaunches
as `starting` and installs the freshly spawned pid. -/
theorem tickRecord_auto_restart (env : Env) (r : ProcessRecord) (s : String)
    (q : Nat) (hrun : r.status = Status.running)
    (hq : env.query r.pid = QueryResult.notFound)
    (hac : r.antiCrashEnabled = true) (hbo : env.backoffElapsed r.pid = true)
    (hls : r.launchScript = some s) (hsp : env.spawn r.pid = some q) :
    (tickRecord env r).restartCount = r.restartCount + 1
    ∧ (tickRecord env r).status = Status.starting
    ∧ (tickRecord env r).pid = q := by
  have htick : tickRecord env r = crashResponse env { r with status := Status.crashed } := by
    simp [tickRecord, hrun, hq, lossResponse, classifyLoss]
  rw [htick]
  simp [crashResponse, hls, hac, hbo, hsp]

/-- C2: `restartCount` never decreases across a tick, an automatic
crash-triggered restart raises it by exactly one, and the manual commands
(restart, stop, toggle) leave it unchanged — for `restart(id)` on the whole
registry. -/
theorem restartCount_policy (env : Env) (r : ProcessRecord) (s : String)
    (q : Nat) (reg : List ProcessRecord) (p : Nat) :
    r.restartCount ≤ (tickRecord env r).restartCount
    ∧ (r.status = Status.running → env.query r.pid = QueryResult.notFound →
        r.antiCrashEnabled = true → env.backoffElapsed r.pid = true →
        r.launchScript = some s → env.spawn r.pid = some q →
        (tickRecord env r).restartCount = r.restartCount + 1)
    ∧ ((restart_bot env reg p).registry).map (fun x => x.restartCount)
        = reg.map (fun x => x.restartCount)
    ∧ (stop_bot true r).restartCount = r.restartCount
    ∧ (stop_bot false r).restartCount = r.restartCount
    ∧ (toggleAntiCrash r).1.restartCount = r.restartCount := by
  refine ⟨?_, ?_, ?_, rfl, rfl, rfl⟩
  · rcases tickRecord_restartCount env r with h | h <;> omega
  · intro h1 h2 h3 h4 h5 h6
    exact (tickRecord_auto_restart env r s q h1 h2 h3 h4 h5 h6).1
  · unfold restart_bot
    split
    · rfl
    · split
      · rfl
      · split
        · rfl
        · refine map_proj_of_pointwise _ _ ?_ reg
          intro x
          by_cases hx : x.pid == p
          · simp [hx]
          · simp [hx]

/-- Witness for C2: the concrete running record loses its pid, is
auto-restarted with `restartCount` going from 0 to 1, and a manual restart of
the concrete registry changes no restart count. -/
theorem restartCount_policy_witness :
    rEx.restartCount ≤ (tickRecord envEx rEx).restartCount
    ∧ (tickRecord envEx rEx).restartCount = rEx.restartCount + 1
    ∧ ((restart_bot envEx regEx 7).registry).map (fun x => x.restartCount)
        = regEx.map (fun x => x.restartCount) :=
  ⟨(restartCount_policy envEx rEx "a.bat" 1007 regEx 7).1,
   (restartCount_policy envEx rEx "a.bat" 1007 regEx 7).2.1 rfl rfl rfl rfl rfl rfl,
   (restartCount_policy envEx rEx "a.bat" 1007 regEx 7).2.2.1⟩

/-- A record already `crashed` whose status field is rewritten to `crashed`
is unchanged. -/
theorem crashed_update_self (r : ProcessRecord) (hcr : r.status = Status.crashed) :
    { r with status := Status.crashed } = r := by
  cases r
  simp_all

/-- The GUI start loop refuses a detected record and leaves the registry
unchanged. -/
theorem start_selected_refuses (env : Env) (reg : List ProcessRecord) (p : Nat)
    (rr : ProcessRecord) (hf : reg.find? (fun x => x.pid == p) = some rr)
    (hd : rr.detected = true) :
    start_selected_bots env [p] reg
      = ([(false, "Bot was auto-detected and cannot be started directly")], reg) := by
  simp [start_selected_bots, hf, hd]

/-- C3: a detected record is created with no launch script, a liveness loss
leaves it `crashed` with its `restartCount` and pid untouched, a later tick
leaves the crashed record exactly as it is (no auto-restart until a manual
command), and the GUI start command refuses to start a detected record
directly. -/
theorem detected_never_restarted (env : Env) (r : ProcessRecord)
    (hdet : r.detected = true) (hls : r.launchScript = none) :
    (∀ n p, (newDetectedRecord n p).detected = true
      ∧ (newDetectedRecord n p).launchScript = none
      ∧ (newDetectedRecord n p).status = Status.running)
    ∧ (env.query r.pid = QueryResult.notFound → r.status = Status.running →
        (tickRecord env r).status = Status.crashed
        ∧ (tickRecord env r).restartCount = r.restartCount
        ∧ (tickRecord env r).pid = r.pid)
    ∧ (env.query r.pid = QueryResult.notFound → r.status = Status.crashed →
        tickRecord env r = r)
    ∧ ∀ (reg : List ProcessRecord) (p : Nat) (rr : ProcessRecord),
        reg.find? (fun x => x.pid == p) = some rr → rr.detected = true →
        start_selected_bots env [p] reg
          = ([(false, "Bot was auto-detected and cannot be started directly")], reg) := by
  refine ⟨fun n p => ⟨rfl, rfl, rfl⟩, ?_, ?_,
    fun reg p rr hf hd => start_selected_refuses env reg p rr hf hd⟩
  · intro hq hrun
    have htick : tickRecord env r = crashResponse env { r with status := Status.crashed } := by
      simp [tickRecord, hrun, hq, lossResponse, classifyLoss]
    rw [htick]
    simp [crashResponse, hls]
  · intro hq hcr
    have hr2 : { r with status := Status.crashed } = r := crashed_update_self r hcr
    calc tickRecord env r
        = crashResponse env { r with status := Status.crashed } := by
          simp [tickRecord, hcr, hq, lossResponse, classifyLoss]
      _ = crashResponse env r := by rw [hr2]
      _ = { r with status := Status.crashed } := by simp [crashResponse, hls]
      _ = r := hr2

/-- Witness for C3 at a concrete detected record whose pid has vanished. -/
theorem detected_never_restarted_witness :
    ((tickRecord envEx (newDetectedRecord 0 9)).status = Status.crashed
      ∧ (tickRecord envEx (newDetectedRecord 0 9)).restartCount
          = (newDetectedRecord 0 9).restartCount
      ∧ (tickRecord envEx (newDetectedRecord 0 9)).pid = (newDetectedRecord 0 9).pid)
    ∧ start_selected_bots envEx [9] regEx
        = ([(false, "Bot was auto-detected and cannot be started directly")], regEx) :=
  ⟨(detected_never_restarted envEx (newDetectedRecord 0 9) rfl rfl).2.1 rfl rfl,
   (detected_never_restarted envEx (newDetectedRecord 0 9) rfl rfl).2.2.2 regEx 9
     (newDetectedRecord 0 9) (by decide) rfl⟩
